import Mathlib

/-!
Shallow embedding of the EndlessClaude chat component
(`src/src/components/ChatInterface.tsx` and the unnamed variant
`src/unnamed/part_000`, which differ only in the response acquirer:
`simulateAIResponse` vs the provider-backed `getAIResponse`).

The embedding models the message-list state machine of `ChatInterface`:
`handleSendMessage`, the two response-acquirer strategies, and
`copyMessage` with its clipboard reset timer.  JavaScript strings are
modelled as Lean `String`; the relevant `String.prototype` operations
(`trim`, `toLowerCase`, `includes`, `Number.prototype.toString`) are
re-implemented here as structurally recursive functions on `List Char`
so that every definition evaluates by kernel reduction.  `toLowerCase`
is modelled on the ASCII range, which covers every character the
component's keyword rules inspect.  `Date.now()` readings are passed in
explicitly as `Nat` clock values, and each synchronous block between
`await` suspension points is modelled as one atomic state transition,
faithful to the single-threaded event-loop semantics of the source.
-/

set_option maxRecDepth 4000

namespace EndlessClaude

/-! ### JavaScript string primitives, embedded on `List Char` -/

/-- The WhiteSpace and LineTerminator characters removed by
`String.prototype.trim` (the ones relevant to this component). -/
def jsWhitespaceChars : List Char :=
  [' ', '\t', '\n', '\r', '\x0b', '\x0c', '\u00A0', '\uFEFF', '\u2028', '\u2029']

/-- Whether `c` is trimmed by `String.prototype.trim`. -/
def isJsWs (c : Char) : Bool :=
  jsWhitespaceChars.any (fun d => c == d)

/-- `String.prototype.trim` on the underlying character list. -/
def jsTrimL (l : List Char) : List Char :=
  ((l.dropWhile isJsWs).reverse.dropWhile isJsWs).reverse

/-- Embedding of `String.prototype.trim`. -/
def jsTrim (s : String) : String :=
  ⟨jsTrimL s.data⟩

/-- Embedding of `String.prototype.toLowerCase` (ASCII range). -/
def lowerStr (s : String) : String :=
  ⟨s.data.map Char.toLower⟩

/-- `startsWithL pat l` is true when `pat` is an initial segment of `l`. -/
def startsWithL : List Char → List Char → Bool
  | [], _ => true
  | _ :: _, [] => false
  | a :: as, b :: bs => a == b && startsWithL as bs

/-- `occursInL pat l` is true when `pat` occurs contiguously in `l`. -/
def occursInL (pat : List Char) : List Char → Bool
  | [] => pat.isEmpty
  | b :: bs => startsWithL pat (b :: bs) || occursInL pat bs

/-- Embedding of `s.includes(pat)` from JavaScript. -/
def includesStr (s pat : String) : Bool :=
  occursInL pat.data s.data

/-- Decimal digit character, as produced by `Number.prototype.toString`. -/
def decDigitChar : Nat → Char
  | 0 => '0' | 1 => '1' | 2 => '2' | 3 => '3' | 4 => '4'
  | 5 => '5' | 6 => '6' | 7 => '7' | 8 => '8' | _ => '9'

/-- Fuel-driven accumulator loop producing the decimal digits of `n`
(most significant first) in front of `ds`; mirrors the digit loop that
backs `Number.prototype.toString(10)`. -/
def toDecCore : Nat → Nat → List Char → List Char
  | 0, _, ds => ds
  | fuel + 1, n, ds =>
    let d := decDigitChar (n % 10)
    if n / 10 = 0 then d :: ds else toDecCore fuel (n / 10) (d :: ds)

/-- Embedding of `Number.prototype.toString` for a nonnegative integer
clock reading (`Date.now().toString()`). -/
def natToStr (n : Nat) : String :=
  ⟨toDecCore (n + 1) n []⟩

/-! ### Data model: `Message` and the chat state -/

/-- The `sender` discriminator of the `Message` interface. -/
inductive Sender where
  | user
  | ai
deriving DecidableEq, Repr

/-- The `Message` record of `ChatInterface`.  `timestamp` is the
`Date.now()`-style clock reading behind the stored `Date`; `files` keeps
the optional `File[]` as a list of file references. -/
structure Message where
  id : String
  content : String
  sender : Sender
  timestamp : Nat
  files : Option (List String) := none
deriving DecidableEq, Repr

/-- The component state touched by `handleSendMessage`: the `messages`
list and the `isLoading` flag. -/
structure ChatState where
  messages : List Message
  isLoading : Bool
deriving DecidableEq, Repr

/-- The initial component state (`useState([])`, `useState(false)`). -/
def initialState : ChatState :=
  { messages := [], isLoading := false }

/-! ### Simulated response strategy (`simulateAIResponse`) -/

def greetingResponse : String :=
  "Hello! I\x27m Claude, your AI assistant. How can I help you today?"

def weatherResponse : String :=
  "I don\x27t have access to real-time weather data, but I\x27d be happy to help you find weather information or discuss climate topics in general."

def searchResponse : String :=
  "I understand you\x27d like me to search for information. In a real implementation, I would search the web for relevant results about your query."

def thinkResponse : String :=
  "Let me think deeply about this... In this mode, I would provide more thoughtful, analytical responses with deeper reasoning and consideration of multiple perspectives."

def canvasResponse : String :=
  "Canvas mode activated! In a real implementation, this would allow me to create visual content, diagrams, or interactive elements to help illustrate concepts."

def voiceResponse : String :=
  "I received your voice message! In a complete implementation, I would process the audio and respond accordingly."

/-- The fixed set of generic acknowledgements (`responses` array). -/
def genericResponses : List String :=
  [ "That\x27s an interesting question! I\x27d be happy to help you explore that topic further.",
    "I understand what you\x27re asking about. Let me provide some insights on that.",
    "Great question! Here\x27s what I can tell you about that subject.",
    "I appreciate you sharing that with me. Let me offer some thoughts on this matter.",
    "That\x27s a thoughtful inquiry. I\x27ll do my best to provide you with a helpful response." ]

/-- The fixed disclaimer suffixed to every generic acknowledgement. -/
def demoSuffix : String :=
  " (This is a demo response - in a real implementation, I would provide more specific and helpful answers based on your actual question.)"

/-- The uniformly random pick `responses[Math.floor(Math.random() * responses.length)]`,
with the random draw exposed as a `Fin 5` index. -/
def genericPick (r : Fin 5) : String :=
  genericResponses.get ⟨r.val, by simp [genericResponses]⟩

/-- Embedding of `simulateAIResponse` (ChatInterface.tsx lines 29-56).
The artificial `setTimeout` delay is irrelevant to the returned value and
is not modelled; the `Math.random()` draw for the generic branch is the
explicit argument `r`.  The function is total: the strategy never fails. -/
def simulateAIResponse (r : Fin 5) (userMessage : String) : String :=
  if includesStr (lowerStr userMessage) "hello" || includesStr (lowerStr userMessage) "hi" then
    greetingResponse
  else if includesStr (lowerStr userMessage) "weather" then
    weatherResponse
  else if includesStr userMessage "[Search:" then
    searchResponse
  else if includesStr userMessage "[Think:" then
    thinkResponse
  else if includesStr userMessage "[Canvas:" then
    canvasResponse
  else if includesStr userMessage "[Voice message" then
    voiceResponse
  else
    genericPick r ++ demoSuffix

example : includesStr (lowerStr "This") "hi" = true := by decide
example : simulateAIResponse 0 "HELLO there" = greetingResponse := by decide
example : simulateAIResponse 2 "xyzzy" =
    genericPick 2 ++ demoSuffix := by decide
example : natToStr 6 = "6" := by decide
example : natToStr 1234 = "1234" := by decide
example : jsTrim "  a b  " = "a b" := by decide
example : jsTrim " \t " = "" := by decide

/-! ### Provider-backed response strategy (`getAIResponse`) -/

/-- A streamed fragment's optional text payload (`part?.text`). -/
def fragmentText : Option String → String
  | none => ""
  | some s => s

/-- The `fullResponse` accumulation loop: `fullResponse += part?.text || ""`.
An empty payload string behaves exactly like a missing one (both append
the empty string, matching the JavaScript `||` coercion). -/
def concatFragments : List (Option String) → String
  | [] => ""
  | p :: rest => fragmentText p ++ concatFragments rest

/-- The fixed fallback sentence returned when the concatenation is empty. -/
def providerFallback : String :=
  "I apologize, but I didn\x27t receive a proper response. Please try again."

/-- Embedding of `getAIResponse` (part_000 lines 31-48).  The provider
call `puter.ai.chat(...)` either yields a stream, modelled as the list of
its fragments in arrival order, or throws, modelled as `.error` carrying
the underlying message (`error.message`, or the literal
`"Unknown error"` for a non-`Error` throw). -/
def getAIResponse (provider : Except String (List (Option String))) :
    Except String String :=
  match provider with
  | .error e => .error ("Failed to get AI response: " ++ e)
  | .ok parts =>
    let fullResponse := concatFragments parts
    .ok (if fullResponse == "" then providerFallback else fullResponse)

/-! ### Turn controller (`handleSendMessage`) -/

/-- Outcome of the awaited response-acquirer call inside the `try`:
either the resolved assistant text or the thrown error's message. -/
inductive AcqResult where
  | success (text : String)
  | failure (errMsg : String)
deriving DecidableEq, Repr

/-- `!files || files.length === 0`. -/
def emptyFiles : Option (List String) → Bool
  | none => true
  | some fs => fs.length == 0

/-- The guard `!content.trim() && (!files || files.length === 0)`:
`true` exactly when `handleSendMessage` returns without doing anything. -/
def sendRejected (content : String) (files : Option (List String)) : Bool :=
  (jsTrim content == "") && emptyFiles files

/-- The user `Message` built by `handleSendMessage`; `t1` is the
`Date.now()` reading at submission time. -/
def mkUserMessage (content : String) (files : Option (List String))
    (t1 : Nat) : Message :=
  { id := natToStr t1, content := content, sender := .user,
    timestamp := t1, files := files }

/-- The assistant `Message` built after the acquirer resolves or throws;
`t2` is the `Date.now()` reading at that moment and the id is
`(Date.now() + 1).toString()`. -/
def mkAiMessage (respContent : String) (t2 : Nat) : Message :=
  { id := natToStr (t2 + 1), content := respContent, sender := .ai,
    timestamp := t2, files := none }

/-- The fixed user-safe fallback appended when the acquirer throws. -/
def fallbackContent : String :=
  "I apologize, but I encountered an error while processing your message. Please try again."

/-- The content of the appended assistant message: the resolved text on
success, the fixed fallback on failure (the caught error is only logged). -/
def acqContent : AcqResult → String
  | .success text => text
  | .failure _ => fallbackContent

/-- The state after the synchronous prefix of an accepted
`handleSendMessage` call: the user message is appended and
`setIsLoading(true)` has run.  This is the state observable during the
`await` of the response acquirer. -/
def sendMidState (st : ChatState) (content : String)
    (files : Option (List String)) (t1 : Nat) : ChatState :=
  { messages := st.messages ++ [mkUserMessage content files t1],
    isLoading := true }

/-- Embedding of `handleSendMessage` as one request/response turn.
`t1` and `t2` are the `Date.now()` readings at submission and at
acquirer completion; `r` is the acquirer outcome.  The guard makes the
rejected call a no-op; otherwise the user message is appended, the
assistant (or fallback) message is appended after the acquirer settles,
and the `finally` clears `isLoading`. -/
def handleSendMessage (st : ChatState) (content : String)
    (files : Option (List String)) (t1 t2 : Nat) (r : AcqResult) : ChatState :=
  if sendRejected content files then st
  else
    { messages := (sendMidState st content files t1).messages
        ++ [mkAiMessage (acqContent r) t2],
      isLoading := false }

/-- One submitted turn of a session: the input, the two clock readings
and the acquirer outcome. -/
structure Turn where
  content : String
  files : Option (List String)
  t1 : Nat
  t2 : Nat
  r : AcqResult
deriving DecidableEq, Repr

/-- Sequential execution of a list of turns, each completing before the
next begins. -/
def runTurns (st : ChatState) : List Turn → ChatState
  | [] => st
  | tu :: rest => runTurns (handleSendMessage st tu.content tu.files tu.t1 tu.t2 tu.r) rest

/-- Every turn of the list passes the non-empty precondition. -/
def turnsAccepted (turns : List Turn) : Bool :=
  turns.all (fun tu => !sendRejected tu.content tu.files)

/-- The clock readings of the turns are non-decreasing, starting from
lower bound `lb`: within a turn `t1 ≤ t2`, and each turn starts no
earlier than the previous one finished. -/
def turnTimesOk : Nat → List Turn → Bool
  | _, [] => true
  | lb, tu :: rest =>
    decide (lb ≤ tu.t1) && decide (tu.t1 ≤ tu.t2) && turnTimesOk tu.t2 rest

/-- The numeric sources of the generated message ids, in append order:
`t1` for each user message and `t2 + 1` for each assistant message. -/
def idNums (turns : List Turn) : List Nat :=
  turns.flatMap (fun tu => [tu.t1, tu.t2 + 1])

/-! ### Clipboard helper (`copyMessage`) -/

/-- The clipboard-related component state: `copiedId` and the multiset of
pending `setTimeout` reset timers, kept as their absolute fire times in
scheduling order. -/
structure ClipState where
  copiedId : Option String
  timers : List Nat
deriving DecidableEq, Repr

/-- The initial clipboard state (`useState(null)`, no timers). -/
def initialClip : ClipState :=
  { copiedId := none, timers := [] }

/-- The `setTimeout` delay before the copied id is reset. -/
def copyResetDelay : Nat := 2000

/-- Embedding of `copyMessage` at clock reading `now`.  When the
clipboard write succeeds, `setCopiedId(messageId)` runs and a reset
timer is scheduled `copyResetDelay` later; the code never cancels any
existing timer.  When the write throws, the error is logged and the
state is unchanged. -/
def copyMessage (st : ClipState) (messageId : String) (now : Nat)
    (writeOk : Bool) : ClipState :=
  if writeOk then
    { copiedId := some messageId, timers := st.timers ++ [now + copyResetDelay] }
  else st

/-- Advance the clock to time `t`: every pending timer due at or before
`t` fires, and each firing runs `setCopiedId(null)` unconditionally. -/
def fireResets (st : ClipState) (t : Nat) : ClipState :=
  { copiedId := if st.timers.any (fun f => decide (f ≤ t)) then none else st.copiedId,
    timers := st.timers.filter (fun f => decide (t < f)) }

example :
    (handleSendMessage initialState "hi " none 3 9 (.success "ok")).messages
      = [mkUserMessage "hi " none 3, mkAiMessage "ok" 9] := by decide
example : handleSendMessage initialState "  " none 3 9 (.success "ok")
      = initialState := by decide
example : getAIResponse (.ok [some "a", none, some "", some "bc"]) = .ok "abc" := rfl
example : getAIResponse (.ok [none, some ""]) = .ok providerFallback := rfl
example : getAIResponse (.error "boom")
      = .error "Failed to get AI response: boom" := rfl
example :
    (fireResets (copyMessage (copyMessage initialClip "m1" 0 true) "m2" 1000 true) 2000).copiedId
      = none := by decide

/-! ### Helper lemmas: decimal strings are injective -/

/-- Numeric value of a decimal digit character. -/
def decVal (c : Char) : Nat := c.toNat - 48

/-- One step of reading a decimal string back into a number. -/
def decodeStep (a : Nat) (c : Char) : Nat := 10 * a + decVal c

lemma decVal_decDigitChar (m : Nat) (h : m < 10) :
    decVal (decDigitChar m) = m := by
  interval_cases m <;> decide

lemma foldl_decodeStep_toDecCore :
    ∀ (fuel n : Nat) (ds : List Char) (a : Nat), n < fuel →
      ∃ k, List.foldl decodeStep a (toDecCore fuel n ds)
        = List.foldl decodeStep (a * 10 ^ k + n) ds := by
  intro fuel
  induction fuel with
  | zero => intro n ds a h; exact absurd h (Nat.not_lt_zero n)
  | succ f ih =>
    intro n ds a h
    by_cases h10 : n / 10 = 0
    · refine ⟨1, ?_⟩
      have hn : n < 10 := by omega
      simp only [toDecCore, h10, if_pos, List.foldl_cons, decodeStep,
        Nat.mod_eq_of_lt hn, decVal_decDigitChar n hn, pow_one]
      have hc : 10 * a + n = a * 10 + n := by ring
      rw [hc]
    · have hge : 10 ≤ n := by omega
      obtain ⟨k, heq⟩ :=
        ih (n / 10) (decDigitChar (n % 10) :: ds) a (by omega)
      refine ⟨k + 1, ?_⟩
      rw [toDecCore, if_neg h10, heq, List.foldl_cons]
      have hstep : decodeStep (a * 10 ^ k + n / 10) (decDigitChar (n % 10))
          = a * 10 ^ (k + 1) + n := by
        simp only [decodeStep, decVal_decDigitChar _ (Nat.mod_lt n (by norm_num)),
          pow_succ, ← Nat.mul_assoc]
        generalize a * 10 ^ k = b
        omega
      rw [hstep]

lemma decode_natToStr (n : Nat) :
    List.foldl decodeStep 0 (natToStr n).data = n := by
  obtain ⟨k, heq⟩ :=
    foldl_decodeStep_toDecCore (n + 1) n [] 0 (Nat.lt_succ_self n)
  simpa using heq

lemma natToStr_injective : Function.Injective natToStr := by
  intro m n h
  have hm := decode_natToStr m
  rw [h, decode_natToStr n] at hm
  exact hm.symm

/-! ### Helper lemmas: the turn controller's append behaviour -/

lemma handleSend_accepted {st : ChatState} {c : String}
    {f : Option (List String)} {t1 t2 : Nat} {r : AcqResult}
    (h : sendRejected c f = false) :
    handleSendMessage st c f t1 t2 r =
      { messages := st.messages ++ [mkUserMessage c f t1, mkAiMessage (acqContent r) t2],
        isLoading := false } := by
  simp [handleSendMessage, sendMidState, h]

lemma runTurns_map_id (turns : List Turn) :
    ∀ st : ChatState, turnsAccepted turns = true →
      (runTurns st turns).messages.map Message.id
        = st.messages.map Message.id ++ (idNums turns).map natToStr := by
  induction turns with
  | nil => intro st _; simp [runTurns, idNums]
  | cons tu rest ih =>
    intro st h
    simp only [turnsAccepted, List.all_cons, Bool.and_eq_true, Bool.not_eq_true'] at h
    obtain ⟨h1, h2⟩ := h
    rw [runTurns, ih _ h2, handleSend_accepted h1]
    simp [idNums, mkUserMessage, mkAiMessage]

/-- Per-turn invariant behind the length/ordering claim: running
`turns` from a timestamp-sorted state bounded by `lb` keeps the list
sorted, adds two messages per turn, and bounds every timestamp by the
final clock reading. -/
lemma runTurns_sorted_length (turns : List Turn) :
    ∀ (st : ChatState) (lb : Nat), turnsAccepted turns = true →
      turnTimesOk lb turns = true →
      (∀ m ∈ st.messages, m.timestamp ≤ lb) →
      List.Sorted (fun a b => a ≤ b) (st.messages.map Message.timestamp) →
      (runTurns st turns).messages.length = st.messages.length + 2 * turns.length
      ∧ List.Sorted (fun a b => a ≤ b)
          ((runTurns st turns).messages.map Message.timestamp) := by
  induction turns with
  | nil => intro st lb _ _ _ hsort; exact ⟨by simp [runTurns], by simpa [runTurns] using hsort⟩
  | cons tu rest ih =>
    intro st lb hacc htime hbound hsort
    simp only [turnsAccepted, List.all_cons, Bool.and_eq_true, Bool.not_eq_true'] at hacc
    obtain ⟨h1, h2⟩ := hacc
    simp only [turnTimesOk, Bool.and_eq_true, decide_eq_true_eq] at htime
    obtain ⟨⟨hlb, h12⟩, hrest⟩ := htime
    rw [runTurns, handleSend_accepted h1]
    have hbound' : ∀ m ∈ st.messages ++ [mkUserMessage tu.content tu.files tu.t1,
        mkAiMessage (acqContent tu.r) tu.t2], m.timestamp ≤ tu.t2 := by
      intro m hm
      rcases List.mem_append.1 hm with hm | hm
      · exact le_trans (hbound m hm) (le_trans hlb h12)
      · simp only [List.mem_cons, List.not_mem_nil, or_false] at hm
        rcases hm with rfl | rfl
        · simpa [mkUserMessage] using h12
        · simp [mkAiMessage]
    have hsort' : List.Sorted (fun a b => a ≤ b)
        ((st.messages ++ [mkUserMessage tu.content tu.files tu.t1,
          mkAiMessage (acqContent tu.r) tu.t2]).map Message.timestamp) := by
      rw [List.map_append]
      rw [List.Sorted] at hsort ⊢
      rw [List.pairwise_append]
      refine ⟨hsort, ?_, ?_⟩
      · simp [mkUserMessage, mkAiMessage, h12]
      · intro a ha b hb
        simp only [List.mem_map] at ha
        obtain ⟨m, hm, rfl⟩ := ha
        have hle : m.timestamp ≤ tu.t1 := le_trans (hbound m hm) hlb
        simp only [List.map_cons, List.map_nil, mkUserMessage, mkAiMessage,
          List.mem_cons, List.not_mem_nil, or_false] at hb
        rcases hb with rfl | rfl
        · exact hle
        · exact le_trans hle h12
    have := ih { messages := st.messages ++ [mkUserMessage tu.content tu.files tu.t1,
        mkAiMessage (acqContent tu.r) tu.t2], isLoading := false }
      tu.t2 h2 hrest hbound' hsort'
    refine ⟨?_, this.2⟩
    rw [this.1]
    simp only [List.length_append, List.length_cons, List.length_nil, List.length]
    omega

example : natToStr 16 ≠ natToStr 61 := fun h => by
  have := natToStr_injective h; omega

/-! ### Claim theorems -/

/-- C1: a `submit` call whose text trims non-empty or whose file list is
non-empty appends exactly two messages, the user message first and the
assistant message second; a call with trimmed-empty text and no files
appends nothing and leaves the state unchanged. -/
theorem submit_appends_two_or_noop (st : ChatState) (content : String)
    (files : Option (List String)) (t1 t2 : Nat) (r : AcqResult) :
    (sendRejected content files = false →
      (handleSendMessage st content files t1 t2 r).messages
        = st.messages ++ [mkUserMessage content files t1, mkAiMessage (acqContent r) t2]
      ∧ (mkUserMessage content files t1).sender = Sender.user
      ∧ (mkAiMessage (acqContent r) t2).sender = Sender.ai)
    ∧ (sendRejected content files = true →
      handleSendMessage st content files t1 t2 r = st) := by
  constructor
  · intro h
    exact ⟨by rw [handleSend_accepted h], rfl, rfl⟩
  · intro h
    simp [handleSendMessage, h]

/-- Witness for C1: one accepted call appends the two messages, one
trimmed-empty call is a no-op. -/
theorem submit_appends_two_or_noop_witness :
    (sendRejected "hi " none = false
      ∧ (handleSendMessage initialState "hi " none 3 9 (.success "ok")).messages
          = [mkUserMessage "hi " none 3, mkAiMessage "ok" 9])
    ∧ (sendRejected "  " none = true
      ∧ handleSendMessage initialState "  " none 4 9 (.failure "e") = initialState) := by
  constructor
  · refine ⟨by decide, ?_⟩
    have h := (submit_appends_two_or_noop initialState "hi " none 3 9 (.success "ok")).1
      (by decide)
    simpa [initialState, acqContent] using h.1
  · exact ⟨by decide,
      (submit_appends_two_or_noop initialState "  " none 4 9 (.failure "e")).2 (by decide)⟩

/-- C2: when the acquirer throws, the appended assistant message's
content is the fixed fallback string, and the whole resulting state is
the same for every underlying error message, so no part of the error
leaks into any appended message. -/
theorem failure_appends_fixed_fallback (st : ChatState) (content : String)
    (files : Option (List String)) (t1 t2 : Nat) (e : String)
    (h : sendRejected content files = false) :
    (handleSendMessage st content files t1 t2 (.failure e)).messages
      = st.messages ++ [mkUserMessage content files t1, mkAiMessage fallbackContent t2]
    ∧ (mkAiMessage fallbackContent t2).content = fallbackContent
    ∧ ∀ e2 : String, handleSendMessage st content files t1 t2 (.failure e2)
        = handleSendMessage st content files t1 t2 (.failure e) := by
  refine ⟨by rw [handleSend_accepted h]; rfl, rfl, ?_⟩
  intro e2
  rw [handleSend_accepted h, handleSend_accepted h]; rfl

/-- Witness for C2 at a concrete failing call. -/
theorem failure_appends_fixed_fallback_witness :
    sendRejected "x" none = false
    ∧ (handleSendMessage initialState "x" none 0 7 (.failure "boom")).messages
        = [mkUserMessage "x" none 0, mkAiMessage fallbackContent 7] := by
  refine ⟨by decide, ?_⟩
  have h := failure_appends_fixed_fallback initialState "x" none 0 7 "boom" (by decide)
  simpa [initialState] using h.1

/-- C3: on an accepted call the observable state between the two appends
(the state during the acquirer `await`) has the user message appended and
`isLoading = true`; the final state appends the assistant message and has
`isLoading = false`, for success and failure outcomes alike. -/
theorem pending_true_between_appends (st : ChatState) (content : String)
    (files : Option (List String)) (t1 t2 : Nat) (r : AcqResult)
    (h : sendRejected content files = false) :
    (sendMidState st content files t1).isLoading = true
    ∧ (sendMidState st content files t1).messages
        = st.messages ++ [mkUserMessage content files t1]
    ∧ handleSendMessage st content files t1 t2 r
        = { messages := (sendMidState st content files t1).messages
              ++ [mkAiMessage (acqContent r) t2],
            isLoading := false }
    ∧ (handleSendMessage st content files t1 t2 r).isLoading = false := by
  refine ⟨rfl, rfl, ?_, ?_⟩
  · simp [handleSendMessage, h]
  · simp [handleSendMessage, h]

/-- Witness for C3: the flag spans the awaited call on a success path and
on a failure path. -/
theorem pending_true_between_appends_witness :
    sendRejected "q" none = false
    ∧ (sendMidState initialState "q" none 1).isLoading = true
    ∧ (handleSendMessage initialState "q" none 1 2 (.success "a")).isLoading = false
    ∧ (handleSendMessage initialState "q" none 1 2 (.failure "e")).isLoading = false := by
  refine ⟨by decide, ?_, ?_, ?_⟩
  · exact (pending_true_between_appends initialState "q" none 1 2 (.success "a")
      (by decide)).1
  · exact (pending_true_between_appends initialState "q" none 1 2 (.success "a")
      (by decide)).2.2.2
  · exact (pending_true_between_appends initialState "q" none 1 2 (.failure "e")
      (by decide)).2.2.2

/-- C4 counterexample: `copy("m1", t=0)` then `copy("m2", t=1000)`.  The
claim says the first timer is cancelled and a single timer remains, so
the copied id would stay `"m2"` for a full 2000 ms.  In the code no
timer is ever cancelled: after the second copy two timers are pending,
and when the first one fires at t=2000 (only 1000 ms after the second
copy) it resets the copied id to `none`. -/
theorem copy_timer_not_cancelled_cex :
    (copyMessage (copyMessage initialClip "m1" 0 true) "m2" 1000 true).timers.length ≠ 1
    ∧ (fireResets (copyMessage (copyMessage initialClip "m1" 0 true) "m2" 1000 true)
        2000).copiedId ≠ some "m2" := by
  exact ⟨by decide, by decide⟩

/-- C4 amended: a second `copy` before the first reset timer fires does
not cancel it; both timers stay pending, the copied id is the new id
immediately after the second call, and when the first timer fires (before
the new 2000 ms window has elapsed) the copied id is reset to `none`,
leaving only the second timer pending. -/
theorem copy_timer_stacks (id1 id2 : String) (t0 t1 : Nat)
    (h01 : t0 < t1) (_hlt : t1 < t0 + copyResetDelay) :
    (copyMessage (copyMessage initialClip id1 t0 true) id2 t1 true).copiedId = some id2
    ∧ (copyMessage (copyMessage initialClip id1 t0 true) id2 t1 true).timers
        = [t0 + copyResetDelay, t1 + copyResetDelay]
    ∧ (fireResets (copyMessage (copyMessage initialClip id1 t0 true) id2 t1 true)
        (t0 + copyResetDelay)).copiedId = none
    ∧ (fireResets (copyMessage (copyMessage initialClip id1 t0 true) id2 t1 true)
        (t0 + copyResetDelay)).timers = [t1 + copyResetDelay] := by
  refine ⟨rfl, rfl, ?_, ?_⟩
  · simp [fireResets, copyMessage, initialClip]
  · have hx : t0 + copyResetDelay < t1 + copyResetDelay :=
      Nat.add_lt_add_right h01 _
    simp [fireResets, copyMessage, initialClip, List.filter_cons, hx]

/-- Witness for C4 amended at `t0 = 0`, `t1 = 1000`. -/
theorem copy_timer_stacks_witness :
    (0 < 1000 ∧ 1000 < 0 + copyResetDelay)
    ∧ (copyMessage (copyMessage initialClip "m1" 0 true) "m2" 1000 true).copiedId = some "m2"
    ∧ (fireResets (copyMessage (copyMessage initialClip "m1" 0 true) "m2" 1000 true)
        (0 + copyResetDelay)).copiedId = none := by
  refine ⟨⟨by decide, by decide⟩, ?_, ?_⟩
  · exact (copy_timer_stacks "m1" "m2" 0 1000 (by decide) (by decide)).1
  · exact (copy_timer_stacks "m1" "m2" 0 1000 (by decide) (by decide)).2.2.1

/-- C5 counterexample: ids are clock readings, so they can collide across
turns.  Turn one runs from t=0 to t=5 (ids `"0"` and `"6"`); turn two is
submitted at t=6 (user id `"6"`), duplicating the previous assistant id. -/
theorem message_id_collision_cex :
    ¬ (((runTurns initialState
          [⟨"first", none, 0, 5, .success "ok"⟩,
           ⟨"second", none, 6, 10, .success "ok"⟩]).messages.map Message.id).Nodup) := by
  decide

/-- C5 amended: each user id is `t1.toString()` and each assistant id is
`(t2 + 1).toString()`; the ids in the store are pairwise distinct exactly
when these numeric sources are pairwise distinct, which consecutive turns
in the same millisecond (or a submission one millisecond after the
previous assistant append) violate. -/
theorem message_ids_unique_of_distinct_sources (turns : List Turn)
    (hacc : turnsAccepted turns = true) (hnodup : (idNums turns).Nodup) :
    ((runTurns initialState turns).messages.map Message.id).Nodup := by
  rw [runTurns_map_id turns initialState hacc]
  simpa [initialState] using List.Nodup.map natToStr_injective hnodup

/-- Witness for C5 amended: two well-separated turns yield distinct ids. -/
theorem message_ids_unique_of_distinct_sources_witness :
    turnsAccepted [⟨"a", none, 1, 5, .success "x"⟩, ⟨"b", none, 8, 12, .failure "e"⟩] = true
    ∧ (idNums [⟨"a", none, 1, 5, .success "x"⟩, ⟨"b", none, 8, 12, .failure "e"⟩]).Nodup
    ∧ ((runTurns initialState
        [⟨"a", none, 1, 5, .success "x"⟩,
         ⟨"b", none, 8, 12, .failure "e"⟩]).messages.map Message.id).Nodup := by
  exact ⟨by decide, by decide,
    message_ids_unique_of_distinct_sources
      [⟨"a", none, 1, 5, .success "x"⟩, ⟨"b", none, 8, 12, .failure "e"⟩]
      (by decide) (by decide)⟩

/-- C6: the stored user message carries the submitted text verbatim,
while the emptiness guard is evaluated on the trimmed copy. -/
theorem user_content_stored_verbatim (st : ChatState) (content : String)
    (files : Option (List String)) (t1 t2 : Nat) (r : AcqResult)
    (h : sendRejected content files = false) :
    (handleSendMessage st content files t1 t2 r).messages
      = st.messages ++ [mkUserMessage content files t1, mkAiMessage (acqContent r) t2]
    ∧ (mkUserMessage content files t1).content = content
    ∧ sendRejected content files = ((jsTrim content == "") && emptyFiles files) := by
  exact ⟨by rw [handleSend_accepted h], rfl, rfl⟩

/-- Witness for C6: padded input is stored with its padding. -/
theorem user_content_stored_verbatim_witness :
    sendRejected "  padded " none = false
    ∧ (mkUserMessage "  padded " none 5).content = "  padded " := by
  refine ⟨by decide, ?_⟩
  exact (user_content_stored_verbatim initialState "  padded " none 5 9
    (.success "r") (by decide)).2.1

/-- C7: the provider-backed acquirer concatenates the fragments' text
payloads in arrival order (a missing payload contributing `""`), falls
back to the fixed sentence when the concatenation is empty, and wraps a
provider throw in `Failed to get AI response: ...`. -/
theorem getAIResponse_stream_concat :
    (∀ parts : List (Option String),
      concatFragments parts = (parts.map fragmentText).foldr (· ++ ·) ""
      ∧ getAIResponse (.ok parts)
          = .ok (if concatFragments parts == "" then providerFallback
                 else concatFragments parts))
    ∧ fragmentText none = "" ∧ (∀ s, fragmentText (some s) = s)
    ∧ ∀ e : String, getAIResponse (.error e)
        = .error ("Failed to get AI response: " ++ e) := by
  refine ⟨fun parts => ⟨?_, rfl⟩, rfl, fun s => rfl, fun e => rfl⟩
  induction parts with
  | nil => rfl
  | cons p rest ih => simp [concatFragments, ih]

/-- C8 counterexample: the claim promises the fixed search response for
every input containing `"[Search:"`, but the greeting rule is checked
first: `"hello [Search: cats]"` contains `"[Search:"` yet yields the
greeting response. -/
theorem search_rule_shadowed_cex :
    includesStr "hello [Search: cats]" "[Search:" = true
    ∧ simulateAIResponse 0 "hello [Search: cats]" ≠ searchResponse
    ∧ simulateAIResponse 0 "hello [Search: cats]" = greetingResponse := by
  exact ⟨by decide, by decide, by decide⟩

/-- C8 amended: the rules are tried in order, first match wins.  Any
input containing `"hello"` (any case) yields the greeting response; an
input containing `"[Search:"` yields the search response provided no
earlier rule (hello/hi, weather) matched; an input matching no rule
yields one of the fixed generic acknowledgements suffixed with the fixed
disclaimer.  The strategy is a total function: it never fails. -/
theorem simulateAIResponse_rule_table :
    (∀ (r : Fin 5) (s : String), includesStr (lowerStr s) "hello" = true →
      simulateAIResponse r s = greetingResponse)
    ∧ (∀ (r : Fin 5) (s : String),
      includesStr (lowerStr s) "hello" = false →
      includesStr (lowerStr s) "hi" = false →
      includesStr (lowerStr s) "weather" = false →
      includesStr s "[Search:" = true →
      simulateAIResponse r s = searchResponse)
    ∧ (∀ (r : Fin 5) (s : String),
      includesStr (lowerStr s) "hello" = false →
      includesStr (lowerStr s) "hi" = false →
      includesStr (lowerStr s) "weather" = false →
      includesStr s "[Search:" = false →
      includesStr s "[Think:" = false →
      includesStr s "[Canvas:" = false →
      includesStr s "[Voice message" = false →
      simulateAIResponse r s = genericPick r ++ demoSuffix
      ∧ genericPick r ∈ genericResponses) := by
  refine ⟨?_, ?_, ?_⟩
  · intro r s h
    simp [simulateAIResponse, h]
  · intro r s h1 h2 h3 h4
    simp [simulateAIResponse, h1, h2, h3, h4]
  · intro r s h1 h2 h3 h4 h5 h6 h7
    refine ⟨by simp [simulateAIResponse, h1, h2, h3, h4, h5, h6, h7], ?_⟩
    exact List.get_mem _ _ _

/-- Witness for C8 amended: one input per branch. -/
theorem simulateAIResponse_rule_table_witness :
    simulateAIResponse 0 "HeLLo world" = greetingResponse
    ∧ simulateAIResponse 0 "[Search: zebu]" = searchResponse
    ∧ simulateAIResponse 3 "zzz" = genericPick 3 ++ demoSuffix
    ∧ genericPick 3 ∈ genericResponses := by
  refine ⟨?_, ?_, ?_, ?_⟩
  · exact simulateAIResponse_rule_table.1 0 "HeLLo world" (by decide)
  · exact simulateAIResponse_rule_table.2.1 0 "[Search: zebu]"
      (by decide) (by decide) (by decide) (by decide)
  · exact (simulateAIResponse_rule_table.2.2 3 "zzz"
      (by decide) (by decide) (by decide) (by decide)
      (by decide) (by decide) (by decide)).1
  · exact (simulateAIResponse_rule_table.2.2 3 "zzz"
      (by decide) (by decide) (by decide) (by decide)
      (by decide) (by decide) (by decide)).2

/-- C9: a session of N accepted sequential turns under a non-decreasing
clock yields exactly 2N messages whose timestamps are sorted
non-decreasing (insertion order is chronological order). -/
theorem session_length_and_timestamp_sorted (turns : List Turn)
    (hacc : turnsAccepted turns = true) (htime : turnTimesOk 0 turns = true) :
    (runTurns initialState turns).messages.length = 2 * turns.length
    ∧ List.Sorted (fun a b => a ≤ b)
        ((runTurns initialState turns).messages.map Message.timestamp) := by
  have h := runTurns_sorted_length turns initialState 0 hacc htime
    (by intro m hm; simp [initialState] at hm) (by simp [initialState])
  exact ⟨by simpa [initialState] using h.1, h.2⟩

/-- Witness for C9 with two concrete turns (one success, one failure). -/
theorem session_length_and_timestamp_sorted_witness :
    turnsAccepted [⟨"a", none, 1, 2, .success "x"⟩, ⟨"b", none, 3, 4, .failure "e"⟩] = true
    ∧ turnTimesOk 0 [⟨"a", none, 1, 2, .success "x"⟩, ⟨"b", none, 3, 4, .failure "e"⟩] = true
    ∧ (runTurns initialState
        [⟨"a", none, 1, 2, .success "x"⟩, ⟨"b", none, 3, 4, .failure "e"⟩]).messages.length
        = 2 * 2
    ∧ List.Sorted (fun a b => a ≤ b)
        ((runTurns initialState
          [⟨"a", none, 1, 2, .success "x"⟩,
           ⟨"b", none, 3, 4, .failure "e"⟩]).messages.map Message.timestamp) := by
  have h := session_length_and_timestamp_sorted
    [⟨"a", none, 1, 2, .success "x"⟩, ⟨"b", none, 3, 4, .failure "e"⟩]
    (by decide) (by decide)
  exact ⟨by decide, by decide, h.1, h.2⟩

/-- C10: the greeting rule tests the two-letter lowercase substring
`"hi"` anywhere in the input, so any input whose lowercase form contains
`"hi"` — inside a word like `"this"` included — yields the greeting. -/
theorem hi_substring_triggers_greeting (r : Fin 5) (s : String)
    (h : includesStr (lowerStr s) "hi" = true) :
    simulateAIResponse r s = greetingResponse := by
  simp [simulateAIResponse, h]

/-- Witness for C10: `"this"` triggers the greeting response. -/
theorem hi_substring_triggers_greeting_witness :
    includesStr (lowerStr "this") "hi" = true
    ∧ simulateAIResponse 0 "this" = greetingResponse :=
  ⟨by decide, hi_substring_triggers_greeting 0 "this" (by decide)⟩

end EndlessClaude
